import Mathlib

/-!
Shallow embedding of the adaptive audio playback pipeline of spicy-kvm
(src/src/audio.c, with the volume curve from the pipewire audio device layer).

Machine doubles are modelled as exact rationals (`ℚ`): decimal literals of the
C source are taken at their exact decimal value, and the math-library constants
`M_PI` / `M_SQRT2` at their exact IEEE-754 double value.  64-bit times and
positions are modelled as `ℤ`.  The lg_common ring buffer implementation is not
part of the sources, so the two rings are modelled from the spec (signed-count
`SampleRing`, 16-slot `TimingRing`); every other definition is translated
directly from the C code.
-/

set_option allowUnsafeReducibility true in
attribute [semireducible] Rat.mul Rat.inv Rat.add Rat.sub Rat.neg Rat.ofScientific

namespace SpicyKvm

/-- Exact value of the IEEE-754 double constant `M_PI`. -/
def M_PI_Q : ℚ := 884279719003555 / 281474976710656

/-- Exact value of the IEEE-754 double constant `M_SQRT2`. -/
def M_SQRT2_Q : ℚ := 6369051672525773 / 4503599627370496

/-- The C sentinel `INT64_MIN`. -/
def INT64_MIN : ℤ := -(2 ^ 63)

/-- Model of C `llrint` (round to nearest) applied to an exact rational. -/
def llrintQ (x : ℚ) : ℤ := round x

/-- Model of C `round` (round half away from zero) applied to an exact rational. -/
def croundQ (x : ℚ) : ℤ := if 0 ≤ x then round x else -round (-x)

/-- `StreamState` from audio.c (the spec calls `SETUP_SPICE` `SETUP_PRODUCER`
and `SETUP_DEVICE` `SETUP_CONSUMER`). -/
inductive StreamState
  | stop
  | setupSpice
  | setupDevice
  | run
  | keepAlive
deriving DecidableEq, Repr

/-- `STREAM_ACTIVE` from audio.c. -/
def STREAM_ACTIVE : StreamState → Bool
  | .run => true
  | .keepAlive => true
  | _ => false

/-- Modelled from the spec: the lg_common ring buffer (`ringbuffer.c`) backing
the SampleRing is not among the sources; per spec §4.1 the observable state is
a signed frame count (negative = silence owed), `append`/`consume` adjust it
and never block. -/
structure SampleRing where
  count : ℤ
deriving DecidableEq, Repr

/-- Modelled from the spec: ringbuffer_append; `n` frames (silence when the
source pointer is null) raise the signed count. -/
def SampleRing.append (r : SampleRing) (n : ℤ) : SampleRing := ⟨r.count + n⟩

/-- Modelled from the spec: ringbuffer_consume; consuming `n` frames lowers
the signed count, zero-filling the destination for frames that are owed. -/
def SampleRing.consume (r : SampleRing) (n : ℤ) : SampleRing := ⟨r.count - n⟩

/-- Modelled from the spec: ringbuffer_getCount, the signed frame count. -/
def SampleRing.getCount (r : SampleRing) : ℤ := r.count

/-- `PlaybackDeviceTick` from audio.c. -/
structure PlaybackDeviceTick where
  periodFrames : ℕ
  nextTime : ℤ
  nextPosition : ℤ
deriving DecidableEq, Repr

/-- Modelled from the spec: push onto the 16-slot TimingRing; on overrun the
newest tick is dropped silently (spec §4.2). -/
def timingPush (l : List PlaybackDeviceTick) (t : PlaybackDeviceTick) :
    List PlaybackDeviceTick :=
  if l.length < 16 then l ++ [t] else l

/-- `PlaybackDeviceData` from audio.c: the consumer-side clock tracker. -/
structure PlaybackDeviceData where
  periodFrames : ℕ
  periodSec : ℚ
  nextTime : ℤ
  nextPosition : ℤ
  b : ℚ
  c : ℚ
deriving DecidableEq, Repr

/-- `PlaybackSpiceData` from audio.c: the producer-side clock tracker, the
device-tick snapshot, and the latency-controller state.  The scratch buffers
and the resampler handle are tracked as allocation witnesses. -/
structure PlaybackSpiceData where
  framesIn : Option ℕ
  framesOut : Option ℕ
  framesOutSize : ℕ
  periodFrames : ℕ
  periodSec : ℚ
  nextTime : ℤ
  nextPosition : ℤ
  b : ℚ
  c : ℚ
  devPeriodFrames : ℕ
  devLastTime : ℤ
  devNextTime : ℤ
  devLastPosition : ℤ
  devNextPosition : ℤ
  offsetError : ℚ
  offsetErrorIntegral : ℚ
  ratioIntegral : ℚ
  src : Bool
deriving DecidableEq, Repr

/-- The playback half of `AudioState` from audio.c, together with the two
`audio_opts` configuration fields it reads (`bufferLatency` is
`audio_opts.buffer_latency`). -/
structure AudioState where
  state : StreamState
  volumeChannels : ℕ
  volume : List ℕ
  mute : Bool
  channels : ℕ
  sampleRate : ℕ
  stride : ℕ
  deviceMaxPeriodFrames : ℕ
  deviceStartFrames : ℕ
  targetStartFrames : ℤ
  bufferLatency : ℤ
  buffer : Option SampleRing
  deviceTiming : Option (List PlaybackDeviceTick)
  timings : Bool
  deviceData : PlaybackDeviceData
  spiceData : PlaybackSpiceData
deriving DecidableEq, Repr

/-- `playback_stop` from audio.c: transition to STOP and free the SampleRing,
the TimingRing, the resampler, the scratch buffers and the timings graph. -/
def playback_stop (s : AudioState) : AudioState :=
  if s.state = .stop then s
  else
    { s with
      state := .stop
      buffer := none
      deviceTiming := none
      timings := false
      spiceData := { s.spiceData with src := false, framesIn := none, framesOut := none } }

/-- The device-clock measurement block of `audio_pull` (audio.c lines
397-439): period-change / desync-slew / steady-state PLL trichotomy on the
consumer-side tracker, also slewing the SampleRing on desync. -/
def deviceClockStep (sr : ℚ) (now : ℤ) (frames : ℕ) (dd : PlaybackDeviceData)
    (buf : SampleRing) : PlaybackDeviceData × SampleRing :=
  if frames ≠ dd.periodFrames then
    let newPeriodSec : ℚ := (frames : ℚ) / sr
    let nt : ℤ :=
      if dd.periodFrames = 0 then now + llrintQ (newPeriodSec * 1000000000)
      else dd.nextTime + llrintQ (dd.periodSec * 1000000000)
    let omega : ℚ := 2 * M_PI_Q * (1 / 20) * newPeriodSec
    ({ dd with
        periodFrames := frames
        periodSec := newPeriodSec
        nextTime := nt
        nextPosition := dd.nextPosition + frames
        b := M_SQRT2_Q * omega
        c := omega * omega },
      buf)
  else
    let error : ℚ := ((now - dd.nextTime : ℤ) : ℚ) * (1 / 1000000000)
    if (1 / 5 : ℚ) ≤ |error| then
      let slewFrames : ℤ := croundQ (error * sr)
      let ps : ℚ := (frames : ℚ) / sr
      ({ dd with
          periodSec := ps
          nextTime := now + llrintQ (ps * 1000000000)
          nextPosition := dd.nextPosition + slewFrames + frames },
        buf.consume slewFrames)
    else
      ({ dd with
          nextTime := dd.nextTime + llrintQ ((dd.b * error + dd.periodSec) * 1000000000)
          periodSec := dd.periodSec + dd.c * error
          nextPosition := dd.nextPosition + frames },
        buf)

/-- `audio_pull` from audio.c: the consumer entry point.  Returns the new
state and the number of frames written. -/
def audio_pull (s : AudioState) (now : ℤ) (frames : ℕ) : AudioState × ℕ :=
  if frames = 0 then (s, 0)
  else
    match s.buffer with
    | none => (s, 0)
    | some buf0 =>
      -- SETUP_DEVICE pre-fill: slew backwards to play silence when the device
      -- started before the target startup latency was buffered.
      let offset : ℤ := buf0.getCount - s.targetStartFrames
      let dd0 :=
        if s.state = .setupDevice ∧ offset < 0 then
          { s.deviceData with nextPosition := s.deviceData.nextPosition + offset }
        else s.deviceData
      let buf1 := if s.state = .setupDevice ∧ offset < 0 then buf0.consume offset else buf0
      let st1 := if s.state = .setupDevice then StreamState.run else s.state
      let p := deviceClockStep (s.sampleRate : ℚ) now frames dd0 buf1
      let dd1 := p.1
      let tick : PlaybackDeviceTick := ⟨dd1.periodFrames, dd1.nextTime, dd1.nextPosition⟩
      let timing1 := s.deviceTiming.map (fun l => timingPush l tick)
      let buf2 := p.2.consume frames
      let s1 := { s with state := st1, deviceData := dd1, deviceTiming := timing1,
                         buffer := some buf2 }
      -- close the stream if nothing has played for a while
      let s2 :=
        if st1 = .keepAlive ∧ buf2.getCount ≤ -(30 * (s.sampleRate : ℤ)) then playback_stop s1
        else s1
      (s2, frames)

/-- `compute_device_position` from audio.c: interpolate the device position at
`curTime` between the last two published ticks. -/
def compute_device_position (sd : PlaybackSpiceData) (curTime : ℤ) : ℚ :=
  (sd.devLastPosition : ℚ) +
    ((sd.devNextPosition - sd.devLastPosition : ℤ) : ℚ) *
      (((curTime - sd.devLastTime : ℤ) : ℚ) / ((sd.devNextTime - sd.devLastTime : ℤ) : ℚ))

/-- The TimingRing drain loop of `audio_playback_data` (audio.c lines
510-517): fold every pending device tick into the producer-side snapshot. -/
def drainTicks (sd : PlaybackSpiceData) (ticks : List PlaybackDeviceTick) :
    PlaybackSpiceData :=
  ticks.foldl
    (fun sd t =>
      { sd with
        devPeriodFrames := t.periodFrames
        devLastTime := sd.devNextTime
        devLastPosition := sd.devNextPosition
        devNextTime := t.nextTime
        devNextPosition := t.nextPosition })
    sd

/-- The target-latency computation of `audio_playback_data` (audio.c lines
524-567), given the post-drain device period. -/
def computeTarget (s : AudioState) (devPF : ℕ) : ℚ :=
  let configLatencyMs : ℤ := max s.bufferLatency 0
  let maxPeriodFrames : ℕ := max s.deviceMaxPeriodFrames devPF
  let t0 : ℚ := (maxPeriodFrames : ℚ) * (11 / 10) +
    ((configLatencyMs * (s.sampleRate : ℤ) : ℤ) : ℚ) / 1000
  if devPF ≠ 0 ∧ devPF < s.deviceMaxPeriodFrames then
    t0 + (((s.deviceMaxPeriodFrames : ℤ) - (devPF : ℤ) : ℤ) : ℚ)
  else t0

/-- Result of the producer-side clock measurement block. -/
structure SpiceClockOut where
  sd : PlaybackSpiceData
  buf : SampleRing
  curTime : ℤ
  curPosition : ℤ
  devPos : Option ℚ
  st : StreamState
deriving DecidableEq, Repr

/-- The Spice-clock measurement block of `audio_playback_data` (audio.c lines
569-634): period-change / desync-or-restart slew / steady-state PLL
trichotomy on the producer-side tracker.  `devPos` carries the `DBL_MIN`
sentinel of the C code as an `Option`. -/
def spiceClockStep (st : StreamState) (sr : ℚ) (sd : PlaybackSpiceData)
    (buf : SampleRing) (target : ℚ) (now : ℤ) (frames : ℕ)
    (periodChanged init : Bool) : SpiceClockOut :=
  if periodChanged then
    let sdA := if init then { sd with nextTime := now } else sd
    let ps : ℚ := (frames : ℚ) / sr
    let omega : ℚ := 2 * M_PI_Q * (1 / 20) * ps
    { sd := { sdA with
        periodSec := ps
        nextTime := sdA.nextTime + llrintQ (ps * 1000000000)
        b := M_SQRT2_Q * omega
        c := omega * omega }
      buf := buf
      curTime := sdA.nextTime
      curPosition := sdA.nextPosition
      devPos := none
      st := st }
  else
    let error : ℚ := ((now - sd.nextTime : ℤ) : ℚ) * (1 / 1000000000)
    if (1 / 5 : ℚ) ≤ |error| ∨ st = .keepAlive then
      -- desync or restart from KEEP_ALIVE: slew the write pointer and reset
      let pSlew : ℤ × Option ℚ :=
        if sd.devLastTime ≠ INT64_MIN then
          let dp := compute_device_position sd now
          let tp0 := dp + target
          -- extra resampler startup latency when resuming from KEEP_ALIVE
          let tp := if st = .keepAlive then tp0 + 20 else tp0
          (croundQ (tp - (sd.nextPosition : ℚ)), some dp)
        else (croundQ (error * sr), none)
      let slewFrames := pSlew.1
      let curPosition := sd.nextPosition + slewFrames
      let ps : ℚ := (frames : ℚ) / sr
      { sd := { sd with
          periodSec := ps
          nextTime := now + llrintQ (ps * 1000000000)
          nextPosition := curPosition
          offsetError := 0
          offsetErrorIntegral := 0
          ratioIntegral := 0 }
        buf := buf.append slewFrames
        curTime := now
        curPosition := curPosition
        devPos := pSlew.2
        st := .run }
    else
      { sd := { sd with
          nextTime := sd.nextTime + llrintQ ((sd.b * error + sd.periodSec) * 1000000000)
          periodSec := sd.periodSec + sd.c * error }
        buf := buf
        curTime := sd.nextTime
        curPosition := sd.nextPosition
        devPos := none
        st := st }

/-- The offset-error filter of `audio_playback_data` (audio.c lines 641-654):
when a device tick has been seen, filter the distance between the measured
producer/device offset and the target latency through the producer PLL
coefficients. -/
def offsetFilterStep (sd : PlaybackSpiceData) (curTime curPosition : ℤ)
    (devPosOpt : Option ℚ) (target : ℚ) : PlaybackSpiceData :=
  if sd.devLastTime ≠ INT64_MIN then
    let devPos := devPosOpt.getD (compute_device_position sd curTime)
    let actualOffset : ℚ := (curPosition : ℚ) - devPos
    let actualOffsetError := -(actualOffset - target)
    let err := actualOffsetError - sd.offsetError
    { sd with
      offsetError := sd.offsetError + sd.b * err + sd.offsetErrorIntegral
      offsetErrorIntegral := sd.offsetErrorIntegral + sd.c * err }
  else sd

/-- PI-controller proportional gain `kp` from audio.c. -/
def kpQ : ℚ := 1 / 2000000

/-- PI-controller integral gain `ki` from audio.c. -/
def kiQ : ℚ := 1 / 10000000000000000

/-- One `src_process` outcome of the external resampler: an error, or the
numbers of input frames used and output frames generated. -/
inductive SrcResult
  | err
  | ok (used gen : ℕ)
deriving DecidableEq, Repr

/-- Environment of a producer push: the wall-clock time, the outcomes of the
two scratch-buffer allocations, and the resampler behaviour as a function of
(input frames available, output capacity, ratio). -/
structure DataEnv where
  now : ℤ
  allocIn : Bool
  allocOut : Bool
  rs : ℕ → ℕ → ℚ → SrcResult

/-- Result of the resampling loop. -/
structure LoopOut where
  buf : SampleRing
  np : ℤ
  totalGen : ℕ
  errored : Bool
deriving DecidableEq, Repr

/-- The resampling loop of `audio_playback_data` (audio.c lines 666-689),
fuelled to stay total: feed the remaining input to the resampler, append the
generated output to the SampleRing, and advance the producer position; on a
resampler error abort in place. -/
def srcLoop (rs : ℕ → ℕ → ℚ → SrcResult) (frames framesOutSize : ℕ) (ratio : ℚ) :
    ℕ → ℕ → SampleRing → ℤ → LoopOut
  | 0, _, buf, np => ⟨buf, np, 0, false⟩
  | fuel + 1, consumed, buf, np =>
    if consumed < frames then
      match rs (frames - consumed) framesOutSize ratio with
      | .err => ⟨buf, np, 0, true⟩
      | .ok used gen =>
        let r := srcLoop rs frames framesOutSize ratio fuel (consumed + used)
          (buf.append (gen : ℤ)) (np + (gen : ℤ))
        ⟨r.buf, r.np, gen + r.totalGen, r.errored⟩
    else ⟨buf, np, 0, false⟩

/-- Observations of a producer push: the target latency and resampling ratio
that were computed, the total resampler output, and whether the resampler
errored. -/
structure DataObs where
  target : Option ℚ
  ratio : Option ℚ
  outGen : ℕ
  rsError : Bool
deriving DecidableEq, Repr

/-- The body of `audio_playback_data` after the scratch-buffer management
(audio.c lines 506-724): drain the TimingRing, compute the target latency,
measure the Spice clock, filter the offset error, form the PI ratio, resample,
and finish the SETUP_SPICE phase. -/
def data_main (s : AudioState) (env : DataEnv) (frames : ℕ)
    (periodChanged init : Bool) (sd0 : PlaybackSpiceData) : AudioState × DataObs :=
  let ticks := s.deviceTiming.getD []
  let sd1 := drainTicks sd0 ticks
  let timing1 := s.deviceTiming.map (fun _ => ([] : List PlaybackDeviceTick))
  let target := computeTarget s sd1.devPeriodFrames
  let buf0 := s.buffer.getD ⟨0⟩
  let o := spiceClockStep s.state (s.sampleRate : ℚ) sd1 buf0 target env.now frames
    periodChanged init
  -- the local `offsetError` of the C code: read before the filter update
  let offsetError := o.sd.offsetError
  let sd3 := offsetFilterStep o.sd o.curTime o.curPosition o.devPos target
  let sd4 := { sd3 with ratioIntegral := sd3.ratioIntegral + offsetError * sd3.periodSec }
  let ratio : ℚ := 1 + (kpQ * offsetError + kiQ * sd4.ratioIntegral)
  let l := srcLoop env.rs frames sd4.framesOutSize ratio (frames + 1) 0 o.buf sd4.nextPosition
  let sd5 := { sd4 with nextPosition := l.np }
  let s1 := { s with spiceData := sd5, buffer := some l.buf, deviceTiming := timing1,
                     state := o.st }
  let s2 :=
    if l.errored then s1
    else if s1.state = .setupSpice then
      { s1 with
        targetStartFrames := ((sd5.periodFrames * 2 + s.deviceStartFrames : ℕ) : ℤ)
        state := .setupDevice }
    else s1
  (s2, ⟨some target, some ratio, l.totalGen, l.errored⟩)

/-- `audio_playback_data` from audio.c: the producer entry point.  `size` is
the byte size of the S16 packet; the frame count is `size / (channels * 2)`.
Returns the new state and the push observations. -/
def audio_playback_data (s : AudioState) (env : DataEnv) (size : ℕ) :
    AudioState × DataObs :=
  if s.state = .stop ∨ size = 0 then (s, ⟨none, none, 0, false⟩)
  else
    let frames := size / (s.channels * 2)
    let init := s.spiceData.periodFrames = 0
    if frames ≠ s.spiceData.periodFrames then
      -- period change: reallocate the per-period scratch buffers
      let sdA := { s.spiceData with periodFrames := frames, framesIn := none,
                                    framesOut := none }
      if env.allocIn = false then
        (playback_stop { s with spiceData := sdA }, ⟨none, none, 0, false⟩)
      else
        let sdB := { sdA with
          framesIn := some frames
          framesOutSize := (croundQ ((frames : ℚ) * (11 / 10))).toNat }
        if env.allocOut = false then
          (playback_stop { s with spiceData := sdB }, ⟨none, none, 0, false⟩)
        else
          data_main s env frames true (decide init)
            { sdB with framesOut := some sdB.framesOutSize }
    else
      data_main s env frames false (decide init) s.spiceData

/-- The volume curve of `audiodev_playback_volume` (pipewire audio device
layer): `9.3234e-7 * pow(1.000211902, v) - 0.000172787`, over exact
rationals. -/
def audiodev_gain (v : ℕ) : ℚ := (93234 / 100000000000) * (1000211902 / 1000000000 : ℚ) ^ v - 172787 / 1000000000

/-- `audio_playback_volume` from audio.c.  Returns the new state and, when the
stream is active, the (channel count, values) forwarded to the audio device. -/
def audio_playback_volume (s : AudioState) (channels : ℕ) (volume : List ℕ) :
    AudioState × Option (ℕ × List ℕ) :=
  let ch := min 8 channels
  let s' := { s with volume := volume.take ch ++ s.volume.drop ch, volumeChannels := ch }
  if STREAM_ACTIVE s.state then (s', some (ch, volume.take ch)) else (s', none)

/-- Fuelled binary exponentiation on `ℚ`, used to evaluate the volume curve at
large exponents. -/
def qpowAux : ℕ → ℚ → ℕ → ℚ
  | 0, _, _ => 1
  | fuel + 1, q, n =>
    if n = 0 then 1
    else
      let h := qpowAux fuel (q * q) (n / 2)
      if n % 2 = 1 then q * h else h

/-- An idle consumer-side tracker, for concrete instantiations. -/
def baseDD : PlaybackDeviceData where
  periodFrames := 0
  periodSec := 0
  nextTime := 0
  nextPosition := 0
  b := 0
  c := 0

/-- An idle producer-side tracker (fresh from `audio_playback_start`), for
concrete instantiations. -/
def baseSD : PlaybackSpiceData where
  framesIn := none
  framesOut := none
  framesOutSize := 0
  periodFrames := 0
  periodSec := 0
  nextTime := 0
  nextPosition := 0
  b := 0
  c := 0
  devPeriodFrames := 0
  devLastTime := INT64_MIN
  devNextTime := INT64_MIN
  devLastPosition := 0
  devNextPosition := 0
  offsetError := 0
  offsetErrorIntegral := 0
  ratioIntegral := 0
  src := true

/-- A running 48 kHz stereo stream, for concrete instantiations. -/
def baseState : AudioState where
  state := .run
  volumeChannels := 0
  volume := [0, 0, 0, 0, 0, 0, 0, 0]
  mute := false
  channels := 2
  sampleRate := 48000
  stride := 8
  deviceMaxPeriodFrames := 512
  deviceStartFrames := 0
  targetStartFrames := 0
  bufferLatency := 12
  buffer := some ⟨1000⟩
  deviceTiming := some []
  timings := true
  deviceData := { baseDD with periodFrames := 480, periodSec := 1 / 100, nextTime := 10000000 }
  spiceData := { baseSD with periodFrames := 480, periodSec := 1 / 100, nextTime := 10000000 }

/-- A resampler behaviour that consumes all input in one call and produces
one output frame per input frame. -/
def rsOneToOne : ℕ → ℕ → ℚ → SrcResult := fun n _ _ => .ok n n

/-- A resampler behaviour that fails every `src_process` call. -/
def rsFail : ℕ → ℕ → ℚ → SrcResult := fun _ _ _ => .err

/-- A benign push environment at wall-clock time `now`. -/
def baseEnv (now : ℤ) : DataEnv where
  now := now
  allocIn := true
  allocOut := true
  rs := rsOneToOne

/-! ## Helper lemmas -/

theorem qpowAux_eq (fuel : ℕ) :
    ∀ (q : ℚ) (n : ℕ), n < 2 ^ fuel → qpowAux fuel q n = q ^ n := by
  induction fuel with
  | zero =>
    intro q n h
    interval_cases n
    simp [qpowAux]
  | succ f ih =>
    intro q n h
    rw [qpowAux]
    by_cases h0 : n = 0
    · simp [h0]
    · have hlt : n / 2 < 2 ^ f := by
        rw [Nat.div_lt_iff_lt_mul (by norm_num)]
        calc n < 2 ^ (f + 1) := h
          _ = 2 ^ f * 2 := by rw [Nat.pow_succ]
      rw [if_neg h0, ih (q * q) (n / 2) hlt]
      have hq : (q * q) ^ (n / 2) = q ^ (2 * (n / 2)) := by
        rw [two_mul, pow_add, mul_pow]
      rcases Nat.even_or_odd n with he | ho
      · have h2 : n % 2 = 0 := Nat.even_iff.mp he
        rw [if_neg (by simp [h2]), hq]
        congr 1
        omega
      · have h2 : n % 2 = 1 := Nat.odd_iff.mp ho
        rw [if_pos h2, hq, ← pow_succ']
        congr 1
        omega

theorem audiodev_gain_qpow (v : ℕ) (h : v < 2 ^ 17) :
    audiodev_gain v =
      (93234 / 100000000000) * qpowAux 17 (1000211902 / 1000000000 : ℚ) v -
        172787 / 1000000000 := by
  rw [audiodev_gain, qpowAux_eq 17 _ v h]

theorem playback_stop_deviceData (s : AudioState) :
    (playback_stop s).deviceData = s.deviceData := by
  unfold playback_stop
  split <;> rfl

theorem playback_stop_state (s : AudioState) (h : s.state ≠ .stop) :
    (playback_stop s).state = .stop := by
  unfold playback_stop
  rw [if_neg h]

theorem deviceClockStep_change (sr : ℚ) (now : ℤ) (frames : ℕ)
    (dd : PlaybackDeviceData) (buf : SampleRing)
    (h1 : frames ≠ dd.periodFrames) (h2 : dd.periodFrames ≠ 0) :
    deviceClockStep sr now frames dd buf =
      ({ dd with
          periodFrames := frames
          periodSec := (frames : ℚ) / sr
          nextTime := dd.nextTime + llrintQ (dd.periodSec * 1000000000)
          nextPosition := dd.nextPosition + frames
          b := M_SQRT2_Q * (2 * M_PI_Q * (1 / 20) * ((frames : ℚ) / sr))
          c := (2 * M_PI_Q * (1 / 20) * ((frames : ℚ) / sr)) *
            (2 * M_PI_Q * (1 / 20) * ((frames : ℚ) / sr)) },
        buf) := by
  simp [deviceClockStep, h1, h2]

theorem deviceClockStep_init (sr : ℚ) (now : ℤ) (frames : ℕ)
    (dd : PlaybackDeviceData) (buf : SampleRing)
    (h1 : frames ≠ dd.periodFrames) (h2 : dd.periodFrames = 0) :
    deviceClockStep sr now frames dd buf =
      ({ dd with
          periodFrames := frames
          periodSec := (frames : ℚ) / sr
          nextTime := now + llrintQ ((frames : ℚ) / sr * 1000000000)
          nextPosition := dd.nextPosition + frames
          b := M_SQRT2_Q * (2 * M_PI_Q * (1 / 20) * ((frames : ℚ) / sr))
          c := (2 * M_PI_Q * (1 / 20) * ((frames : ℚ) / sr)) *
            (2 * M_PI_Q * (1 / 20) * ((frames : ℚ) / sr)) },
        buf) := by
  simp only [deviceClockStep]
  rw [if_pos h1, if_pos h2]

theorem deviceClockStep_slew (sr : ℚ) (now : ℤ) (frames : ℕ)
    (dd : PlaybackDeviceData) (buf : SampleRing)
    (h1 : frames = dd.periodFrames)
    (h2 : (1 / 5 : ℚ) ≤ |((now - dd.nextTime : ℤ) : ℚ) * (1 / 1000000000)|) :
    deviceClockStep sr now frames dd buf =
      ({ dd with
          periodSec := (frames : ℚ) / sr
          nextTime := now + llrintQ ((frames : ℚ) / sr * 1000000000)
          nextPosition := dd.nextPosition +
            croundQ (((now - dd.nextTime : ℤ) : ℚ) * (1 / 1000000000) * sr) + frames },
        buf.consume (croundQ (((now - dd.nextTime : ℤ) : ℚ) * (1 / 1000000000) * sr))) := by
  simp only [deviceClockStep]
  rw [if_neg (not_not_intro h1), if_pos h2]

theorem deviceClockStep_steady (sr : ℚ) (now : ℤ) (frames : ℕ)
    (dd : PlaybackDeviceData) (buf : SampleRing)
    (h1 : frames = dd.periodFrames)
    (h2 : |((now - dd.nextTime : ℤ) : ℚ) * (1 / 1000000000)| < 1 / 5) :
    deviceClockStep sr now frames dd buf =
      ({ dd with
          nextTime := dd.nextTime + llrintQ
            ((dd.b * (((now - dd.nextTime : ℤ) : ℚ) * (1 / 1000000000)) + dd.periodSec) *
              1000000000)
          periodSec := dd.periodSec +
            dd.c * (((now - dd.nextTime : ℤ) : ℚ) * (1 / 1000000000))
          nextPosition := dd.nextPosition + frames },
        buf) := by
  simp only [deviceClockStep]
  rw [if_neg (not_not_intro h1), if_neg (not_le.mpr h2)]

theorem audio_pull_notSetup (s : AudioState) (now : ℤ) (frames : ℕ) (buf : SampleRing)
    (hbuf : s.buffer = some buf) (hf : frames ≠ 0) (hst : s.state ≠ .setupDevice) :
    audio_pull s now frames =
      (let p := deviceClockStep (s.sampleRate : ℚ) now frames s.deviceData buf
       let tick : PlaybackDeviceTick := ⟨p.1.periodFrames, p.1.nextTime, p.1.nextPosition⟩
       let s1 := { s with deviceData := p.1,
                          deviceTiming := s.deviceTiming.map (fun l => timingPush l tick),
                          buffer := some (p.2.consume frames) }
       (if s.state = .keepAlive ∧ (p.2.consume frames).getCount ≤ -(30 * (s.sampleRate : ℤ))
        then playback_stop s1 else s1,
        frames)) := by
  have hc : ¬(s.state = StreamState.setupDevice ∧ buf.getCount - s.targetStartFrames < 0) :=
    fun h => hst h.1
  simp only [audio_pull, hbuf]
  rw [if_neg hf]
  simp only [if_neg hc, if_neg hst]

theorem audio_pull_setup (s : AudioState) (now : ℤ) (frames : ℕ) (buf : SampleRing)
    (hbuf : s.buffer = some buf) (hf : frames ≠ 0) (hst : s.state = .setupDevice) :
    audio_pull s now frames =
      (let offset := buf.getCount - s.targetStartFrames
       let dd0 := if offset < 0 then
          { s.deviceData with nextPosition := s.deviceData.nextPosition + offset }
        else s.deviceData
       let buf1 := if offset < 0 then buf.consume offset else buf
       let p := deviceClockStep (s.sampleRate : ℚ) now frames dd0 buf1
       let tick : PlaybackDeviceTick := ⟨p.1.periodFrames, p.1.nextTime, p.1.nextPosition⟩
       ({ s with state := .run, deviceData := p.1,
                 deviceTiming := s.deviceTiming.map (fun l => timingPush l tick),
                 buffer := some (p.2.consume frames) },
        frames)) := by
  simp only [audio_pull, hbuf, hst]
  rw [if_neg hf]
  simp

theorem deviceClockStep_snd_of_no_slew (sr : ℚ) (now : ℤ) (frames : ℕ)
    (dd : PlaybackDeviceData) (buf : SampleRing)
    (hnd : frames ≠ dd.periodFrames ∨
      |((now - dd.nextTime : ℤ) : ℚ) * (1 / 1000000000)| < 1 / 5) :
    (deviceClockStep sr now frames dd buf).2 = buf := by
  by_cases hc : frames = dd.periodFrames
  · have herr := hnd.resolve_left (not_not_intro hc)
    rw [deviceClockStep_steady sr now frames dd buf hc herr]
  · simp only [deviceClockStep]
    rw [if_pos hc]

/-! ## Claim C2 -/

/-- C2: in `audio_pull`, when the requested frame count differs from the
stored `periodFrames` and this is not the first call after start, the device
tracker advances `nextTime` by the old `periodSec` (not the new one), then
updates `periodFrames`, recomputes `periodSec`, `b` and `c` from the new frame
count, and advances `nextPosition` by the new frame count. -/
theorem C2_period_change_uses_old_period (s : AudioState) (now : ℤ) (frames : ℕ)
    (buf : SampleRing) (hbuf : s.buffer = some buf) (hf : frames ≠ 0)
    (hst : s.state ≠ .setupDevice)
    (h1 : frames ≠ s.deviceData.periodFrames) (h2 : s.deviceData.periodFrames ≠ 0) :
    (audio_pull s now frames).1.deviceData =
      { s.deviceData with
          periodFrames := frames
          periodSec := (frames : ℚ) / (s.sampleRate : ℚ)
          nextTime := s.deviceData.nextTime + llrintQ (s.deviceData.periodSec * 1000000000)
          nextPosition := s.deviceData.nextPosition + frames
          b := M_SQRT2_Q * (2 * M_PI_Q * (1 / 20) * ((frames : ℚ) / (s.sampleRate : ℚ)))
          c := (2 * M_PI_Q * (1 / 20) * ((frames : ℚ) / (s.sampleRate : ℚ))) *
            (2 * M_PI_Q * (1 / 20) * ((frames : ℚ) / (s.sampleRate : ℚ))) } := by
  rw [audio_pull_notSetup s now frames buf hbuf hf hst]
  dsimp only
  rw [deviceClockStep_change (s.sampleRate : ℚ) now frames s.deviceData buf h1 h2]
  dsimp only
  split
  · rw [playback_stop_deviceData]
  · rfl

/-- A running stream whose device tracker last saw a 256-frame period. -/
def exC2 : AudioState :=
  { baseState with
      deviceData :=
        { baseDD with periodFrames := 256, periodSec := 256 / 48000, nextTime := 5000000 } }

theorem C2_witness :
    (audio_pull exC2 6000000 480).1.deviceData =
      { exC2.deviceData with
          periodFrames := 480
          periodSec := (480 : ℚ) / (exC2.sampleRate : ℚ)
          nextTime := exC2.deviceData.nextTime + llrintQ (exC2.deviceData.periodSec * 1000000000)
          nextPosition := exC2.deviceData.nextPosition + 480
          b := M_SQRT2_Q * (2 * M_PI_Q * (1 / 20) * ((480 : ℚ) / (exC2.sampleRate : ℚ)))
          c := (2 * M_PI_Q * (1 / 20) * ((480 : ℚ) / (exC2.sampleRate : ℚ))) *
            (2 * M_PI_Q * (1 / 20) * ((480 : ℚ) / (exC2.sampleRate : ℚ))) } :=
  C2_period_change_uses_old_period exC2 6000000 480 ⟨1000⟩ (by decide) (by decide)
    (by decide) (by decide) (by decide)

/-! ## Claim C5 -/

/-- C5 (amended): during the consumer-side pre-fill the state transitions to
RUN on the first consumer pull; if the device started earlier than
`targetStartFrames` were available, the negative difference is slewed into the
consumer-side (device) tracker's `nextPosition` — not the producer's, which is
untouched — and the ring is read anyway. -/
theorem C5_prefill_slew_device_side (s : AudioState) (now : ℤ) (frames : ℕ)
    (buf : SampleRing) (hbuf : s.buffer = some buf) (hf : frames ≠ 0)
    (hst : s.state = .setupDevice) (hdd : s.deviceData.periodFrames = 0) :
    (audio_pull s now frames).1.state = .run ∧
    (audio_pull s now frames).1.deviceData.nextPosition =
      s.deviceData.nextPosition +
        (if buf.count - s.targetStartFrames < 0 then buf.count - s.targetStartFrames else 0) +
        frames ∧
    (audio_pull s now frames).1.buffer =
      some ⟨buf.count -
        (if buf.count - s.targetStartFrames < 0 then buf.count - s.targetStartFrames else 0) -
        frames⟩ ∧
    (audio_pull s now frames).1.spiceData = s.spiceData ∧
    (audio_pull s now frames).2 = frames := by
  rw [audio_pull_setup s now frames buf hbuf hf hst]
  dsimp only
  by_cases ho : buf.getCount - s.targetStartFrames < 0
  · rw [if_pos ho]
    have hpf : frames ≠ ({ s.deviceData with
        nextPosition := s.deviceData.nextPosition + (buf.getCount - s.targetStartFrames) } :
          PlaybackDeviceData).periodFrames := by
      simpa [hdd] using hf
    rw [deviceClockStep_init _ _ _ _ _ hpf (by simpa using hdd)]
    simp only [SampleRing.getCount] at ho
    simp [SampleRing.consume, SampleRing.getCount, ho]
  · rw [if_neg ho]
    have hpf : frames ≠ s.deviceData.periodFrames := by simpa [hdd] using hf
    rw [deviceClockStep_init _ _ _ _ _ hpf hdd]
    simp only [SampleRing.getCount] at ho
    simp [SampleRing.consume, SampleRing.getCount, ho]

/-- A SETUP_CONSUMER stream opened with 5 target start frames but an empty
ring, whose producer tracker sits at position 100. -/
def exC5 : AudioState :=
  { baseState with
      state := .setupDevice
      targetStartFrames := 5
      buffer := some ⟨0⟩
      deviceData := baseDD
      spiceData := { baseSD with nextPosition := 100 } }

theorem C5_counterexample :
    (audio_pull exC5 0 4).1.spiceData.nextPosition = 100 ∧
    (audio_pull exC5 0 4).1.deviceData.nextPosition = -1 ∧
    ¬ (audio_pull exC5 0 4).1.spiceData.nextPosition =
        exC5.spiceData.nextPosition + ((0 : ℤ) - exC5.targetStartFrames) := by
  decide

theorem C5_witness :
    (audio_pull exC5 0 4).1.state = .run ∧
    (audio_pull exC5 0 4).1.deviceData.nextPosition = -1 ∧
    (audio_pull exC5 0 4).1.buffer = some ⟨1⟩ ∧
    (audio_pull exC5 0 4).1.spiceData = exC5.spiceData ∧
    (audio_pull exC5 0 4).2 = 4 :=
  C5_prefill_slew_device_side exC5 0 4 ⟨0⟩ (by decide) (by decide) (by decide) (by decide)

/-! ## Claim C6 -/

/-- C6 (amended): `audio_pull` returns exactly the requested frame count
whenever the SampleRing is allocated — which is every state except STOP,
including SETUP_PRODUCER and SETUP_CONSUMER — and returns 0 when the ring is
absent (the STOP state). -/
theorem C6_pull_return_count (s : AudioState) (now : ℤ) (frames : ℕ) :
    (audio_pull s now frames).2 = if s.buffer.isSome then frames else 0 := by
  by_cases hf : frames = 0
  · subst hf
    simp [audio_pull]
  · cases hbuf : s.buffer with
    | none => simp [audio_pull, hbuf, hf]
    | some buf =>
      by_cases hst : s.state = .setupDevice
      · rw [audio_pull_setup s now frames buf hbuf hf hst]
        simp [hbuf]
      · rw [audio_pull_notSetup s now frames buf hbuf hf hst]
        simp [hbuf]

/-- A SETUP_CONSUMER stream with a part-filled ring. -/
def exC6 : AudioState :=
  { baseState with state := .setupDevice, targetStartFrames := 2000, deviceData := baseDD }

theorem C6_counterexample :
    exC6.state = StreamState.setupDevice ∧ (audio_pull exC6 0 480).2 = 480 := by
  decide

/-! ## Claim C7 -/

/-- C7: while the stream is in KEEP_ALIVE and only consumer pulls occur, the
stream transitions to STOP on a pull exactly when the SampleRing count becomes
`≤ −30·sampleRate`, and never before that threshold is reached. -/
theorem C7_keepalive_expiry (s : AudioState) (now : ℤ) (frames : ℕ) (buf : SampleRing)
    (hbuf : s.buffer = some buf) (hka : s.state = .keepAlive) (hf : frames ≠ 0)
    (hnd : frames ≠ s.deviceData.periodFrames ∨
      |((now - s.deviceData.nextTime : ℤ) : ℚ) * (1 / 1000000000)| < 1 / 5) :
    ((audio_pull s now frames).1.state = .stop ↔
      buf.count - frames ≤ -(30 * (s.sampleRate : ℤ))) := by
  have hst : s.state ≠ .setupDevice := by rw [hka]; simp
  rw [audio_pull_notSetup s now frames buf hbuf hf hst]
  dsimp only
  rw [deviceClockStep_snd_of_no_slew (s.sampleRate : ℚ) now frames s.deviceData buf hnd]
  simp only [SampleRing.consume, SampleRing.getCount]
  split
  next h =>
    rw [playback_stop_state _ (by simp [hka])]
    simp [h.2]
  next h =>
    have hc : ¬(buf.count - (frames : ℤ) ≤ -(30 * (s.sampleRate : ℤ))) :=
      fun hcnt => h ⟨hka, hcnt⟩
    simp [hka, hc]

/-- A KEEP_ALIVE stream that has consumed almost 30 s of silence. -/
def exC7 : AudioState :=
  { baseState with state := .keepAlive, buffer := some ⟨-1439900⟩ }

theorem C7_witness :
    (audio_pull exC7 0 480).1.state = .stop :=
  (C7_keepalive_expiry exC7 0 480 ⟨-1439900⟩ (by decide) (by decide) (by decide)
    (Or.inr (by decide))).mpr (by decide)

/-! ## Producer-side helper lemmas -/

theorem spiceClockStep_steady (st : StreamState) (sr : ℚ) (sd : PlaybackSpiceData)
    (buf : SampleRing) (target : ℚ) (now : ℤ) (frames : ℕ) (init : Bool)
    (hka : st ≠ .keepAlive)
    (herr : |((now - sd.nextTime : ℤ) : ℚ) * (1 / 1000000000)| < 1 / 5) :
    spiceClockStep st sr sd buf target now frames false init =
      { sd := { sd with
          nextTime := sd.nextTime + llrintQ
            ((sd.b * (((now - sd.nextTime : ℤ) : ℚ) * (1 / 1000000000)) + sd.periodSec) *
              1000000000)
          periodSec := sd.periodSec +
            sd.c * (((now - sd.nextTime : ℤ) : ℚ) * (1 / 1000000000)) }
        buf := buf
        curTime := sd.nextTime
        curPosition := sd.nextPosition
        devPos := none
        st := st } := by
  simp only [spiceClockStep]
  rw [if_neg (by simp), if_neg (not_or.mpr ⟨not_le.mpr herr, hka⟩)]

theorem spiceClockStep_slew_noDev (st : StreamState) (sr : ℚ) (sd : PlaybackSpiceData)
    (buf : SampleRing) (target : ℚ) (now : ℤ) (frames : ℕ) (init : Bool)
    (hcond : (1 / 5 : ℚ) ≤ |((now - sd.nextTime : ℤ) : ℚ) * (1 / 1000000000)| ∨
      st = .keepAlive)
    (hdl : sd.devLastTime = INT64_MIN) :
    spiceClockStep st sr sd buf target now frames false init =
      { sd := { sd with
          periodSec := (frames : ℚ) / sr
          nextTime := now + llrintQ ((frames : ℚ) / sr * 1000000000)
          nextPosition := sd.nextPosition +
            croundQ (((now - sd.nextTime : ℤ) : ℚ) * (1 / 1000000000) * sr)
          offsetError := 0
          offsetErrorIntegral := 0
          ratioIntegral := 0 }
        buf := buf.append (croundQ (((now - sd.nextTime : ℤ) : ℚ) * (1 / 1000000000) * sr))
        curTime := now
        curPosition := sd.nextPosition +
          croundQ (((now - sd.nextTime : ℤ) : ℚ) * (1 / 1000000000) * sr)
        devPos := none
        st := .run } := by
  simp only [spiceClockStep]
  rw [if_neg (by simp), if_pos hcond, if_neg (not_not_intro hdl)]

theorem spiceClockStep_slew_dev (st : StreamState) (sr : ℚ) (sd : PlaybackSpiceData)
    (buf : SampleRing) (target : ℚ) (now : ℤ) (frames : ℕ) (init : Bool)
    (hcond : (1 / 5 : ℚ) ≤ |((now - sd.nextTime : ℤ) : ℚ) * (1 / 1000000000)| ∨
      st = .keepAlive)
    (hka : st ≠ .keepAlive)
    (hdl : sd.devLastTime ≠ INT64_MIN) :
    spiceClockStep st sr sd buf target now frames false init =
      { sd := { sd with
          periodSec := (frames : ℚ) / sr
          nextTime := now + llrintQ ((frames : ℚ) / sr * 1000000000)
          nextPosition := sd.nextPosition +
            croundQ (compute_device_position sd now + target - (sd.nextPosition : ℚ))
          offsetError := 0
          offsetErrorIntegral := 0
          ratioIntegral := 0 }
        buf := buf.append
          (croundQ (compute_device_position sd now + target - (sd.nextPosition : ℚ)))
        curTime := now
        curPosition := sd.nextPosition +
          croundQ (compute_device_position sd now + target - (sd.nextPosition : ℚ))
        devPos := some (compute_device_position sd now)
        st := .run } := by
  simp only [spiceClockStep]
  rw [if_neg (by simp), if_pos hcond, if_pos hdl, if_neg hka]

theorem offsetFilterStep_skip (sd : PlaybackSpiceData) (curTime curPosition : ℤ)
    (devPosOpt : Option ℚ) (target : ℚ) (h : sd.devLastTime = INT64_MIN) :
    offsetFilterStep sd curTime curPosition devPosOpt target = sd := by
  simp [offsetFilterStep, h]

theorem offsetFilterStep_run (sd : PlaybackSpiceData) (curTime curPosition : ℤ)
    (devPosOpt : Option ℚ) (target : ℚ) (h : sd.devLastTime ≠ INT64_MIN) :
    offsetFilterStep sd curTime curPosition devPosOpt target =
      { sd with
        offsetError := sd.offsetError +
          sd.b * (-(((curPosition : ℚ) -
              devPosOpt.getD (compute_device_position sd curTime)) - target) -
            sd.offsetError) + sd.offsetErrorIntegral
        offsetErrorIntegral := sd.offsetErrorIntegral +
          sd.c * (-(((curPosition : ℚ) -
              devPosOpt.getD (compute_device_position sd curTime)) - target) -
            sd.offsetError) } := by
  simp only [offsetFilterStep]
  rw [if_pos h]

theorem srcLoop_err (rs : ℕ → ℕ → ℚ → SrcResult) (frames fos : ℕ) (ratio : ℚ)
    (fuel consumed : ℕ) (buf : SampleRing) (np : ℤ)
    (hrs : ∀ a b c, rs a b c = .err) (h : consumed < frames) :
    srcLoop rs frames fos ratio (fuel + 1) consumed buf np = ⟨buf, np, 0, true⟩ := by
  rw [srcLoop, if_pos h, hrs]

theorem srcLoop_np_buf (rs : ℕ → ℕ → ℚ → SrcResult) (frames fos : ℕ) (ratio : ℚ) :
    ∀ (fuel consumed : ℕ) (buf : SampleRing) (np : ℤ),
      (srcLoop rs frames fos ratio fuel consumed buf np).np =
        np + ((srcLoop rs frames fos ratio fuel consumed buf np).totalGen : ℤ) ∧
      (srcLoop rs frames fos ratio fuel consumed buf np).buf =
        ⟨buf.count + ((srcLoop rs frames fos ratio fuel consumed buf np).totalGen : ℤ)⟩ := by
  intro fuel
  induction fuel with
  | zero => intro consumed buf np; simp [srcLoop]
  | succ f ih =>
    intro consumed buf np
    rw [srcLoop]
    by_cases h : consumed < frames
    · rw [if_pos h]
      cases hrs : rs (frames - consumed) fos ratio with
      | err => simp
      | ok used gen =>
        dsimp only
        obtain ⟨h1, h2⟩ := ih (consumed + used) (buf.append (gen : ℤ)) (np + (gen : ℤ))
        constructor
        · rw [h1]
          push_cast
          ring
        · rw [h2]
          simp only [SampleRing.append]
          congr 1
          push_cast
          ring
    · rw [if_neg h]
      simp

theorem audio_playback_data_steady (s : AudioState) (env : DataEnv) (size : ℕ)
    (hst : s.state ≠ .stop) (hsz : size ≠ 0)
    (hpc : size / (s.channels * 2) = s.spiceData.periodFrames) :
    audio_playback_data s env size =
      data_main s env (size / (s.channels * 2)) false
        (decide (s.spiceData.periodFrames = 0)) s.spiceData := by
  simp only [audio_playback_data]
  rw [if_neg (not_or.mpr ⟨hst, hsz⟩), if_neg (not_not_intro hpc)]

theorem data_main_target (s : AudioState) (env : DataEnv) (frames : ℕ)
    (pc init : Bool) (sd0 : PlaybackSpiceData) :
    (data_main s env frames pc init sd0).2.target =
      some (computeTarget s (drainTicks sd0 (s.deviceTiming.getD [])).devPeriodFrames) := rfl

theorem dataFinal_spiceData (b : Bool) (s1 : AudioState) (x : ℤ) :
    (if b then s1 else if s1.state = .setupSpice then
      { s1 with targetStartFrames := x, state := .setupDevice } else s1).spiceData =
      s1.spiceData := by
  cases b
  · simp only [Bool.false_eq_true, if_false]
    split <;> rfl
  · rfl

theorem dataFinal_buffer (b : Bool) (s1 : AudioState) (x : ℤ) :
    (if b then s1 else if s1.state = .setupSpice then
      { s1 with targetStartFrames := x, state := .setupDevice } else s1).buffer =
      s1.buffer := by
  cases b
  · simp only [Bool.false_eq_true, if_false]
    split <;> rfl
  · rfl

theorem dataFinal_state (b : Bool) (s1 : AudioState) (x : ℤ)
    (h : s1.state ≠ .setupSpice) :
    (if b then s1 else if s1.state = .setupSpice then
      { s1 with targetStartFrames := x, state := .setupDevice } else s1).state =
      s1.state := by
  cases b
  · simp only [Bool.false_eq_true, if_false]
    rw [if_neg h]
  · rfl

theorem drainTicks_devPeriodFrames (ts : List PlaybackDeviceTick) :
    ∀ sd : PlaybackSpiceData,
      (drainTicks sd ts).devPeriodFrames =
        ((ts.getLast?).map PlaybackDeviceTick.periodFrames).getD sd.devPeriodFrames := by
  induction ts with
  | nil => intro sd; rfl
  | cons t ts ih =>
    intro sd
    cases ts with
    | nil => rfl
    | cons t2 ts2 =>
      have hstep : drainTicks sd (t :: t2 :: ts2) =
          drainTicks { sd with
            devPeriodFrames := t.periodFrames
            devLastTime := sd.devNextTime
            devLastPosition := sd.devNextPosition
            devNextTime := t.nextTime
            devNextPosition := t.nextPosition } (t2 :: ts2) := rfl
      rw [hstep, ih]
      cases hgl : (t2 :: ts2).getLast? with
      | none => simp at hgl
      | some u => simp [List.getLast?_cons_cons, hgl]

/-! ## Claim C3 -/

/-- C3 (amended): every processed producer push computes
`targetLatencyFrames = 1.1·maxPeriodFrames + configLatencyMs·sampleRate/1000`
with `maxPeriodFrames = max(deviceMaxPeriodFrames, observedDevPeriodFrames)`,
and the correction `+ (deviceMaxPeriodFrames − observedDevPeriodFrames)` is
applied only when the observed device period is nonzero (a tick has been seen)
and smaller than the device maximum — not merely whenever it is smaller. -/
theorem C3_target_latency (s : AudioState) (env : DataEnv) (size : ℕ)
    (ts : List PlaybackDeviceTick)
    (hst : s.state ≠ .stop) (hsz : size ≠ 0) (hts : s.deviceTiming = some ts)
    (hai : env.allocIn = true) (hao : env.allocOut = true) :
    (audio_playback_data s env size).2.target =
      some (computeTarget s
        ((ts.getLast?.map PlaybackDeviceTick.periodFrames).getD
          s.spiceData.devPeriodFrames)) := by
  by_cases hpc : size / (s.channels * 2) = s.spiceData.periodFrames
  · rw [audio_playback_data_steady s env size hst hsz hpc, data_main_target, hts]
    simp only [Option.getD_some]
    rw [drainTicks_devPeriodFrames]
  · simp only [audio_playback_data]
    rw [if_neg (not_or.mpr ⟨hst, hsz⟩), if_pos hpc, hai]
    simp only [Bool.true_eq_false, if_false]
    rw [hao]
    simp only [Bool.true_eq_false, if_false]
    rw [data_main_target, hts]
    simp only [Option.getD_some]
    rw [drainTicks_devPeriodFrames]

/-- A running stream whose device maximum period (1024) exceeds the producer's
observed device period (still 0: no tick seen yet). -/
def exC3 : AudioState := { baseState with deviceMaxPeriodFrames := 1024 }

theorem C3_counterexample :
    (audio_playback_data exC3 (baseEnv 10000000) 1920).2.target = some (17024 / 10) ∧
    ¬ (audio_playback_data exC3 (baseEnv 10000000) 1920).2.target =
        some ((1024 : ℚ) * (11 / 10) + ((12 * 48000 : ℤ) : ℚ) / 1000 +
          ((1024 : ℤ) - (0 : ℤ))) := by
  decide

theorem C3_witness :
    (audio_playback_data exC3 (baseEnv 10000000) 1920).2.target = some (17024 / 10) := by
  rw [C3_target_latency exC3 (baseEnv 10000000) 1920 [] (by decide) (by decide) rfl rfl rfl]
  decide

theorem compute_device_position_eta (sd : PlaybackSpiceData) (nt : ℤ) (ps : ℚ) (t : ℤ) :
    compute_device_position { sd with nextTime := nt, periodSec := ps } t =
      compute_device_position sd t := rfl

/-! ## Claim C1 -/

/-- C1 (amended): after a steady-state producer push (no period change, no
desync slew, device ticks already seen), the PLL filter update
`offsetError += b·err + offsetErrorIntegral` (with
`err = actualOffsetError − offsetError`) is computed and stored, but the
resampling ratio of this push is formed from the *previous* push's
`offsetError` (the local captured before the update):
`ratioIntegral += offsetErrorPrev · periodSec` and
`ratio = 1.0 + kp·offsetErrorPrev + ki·ratioIntegral`, with `kp = 0.5e-6` and
`ki = 1.0e-16`.  The freshly filtered value only takes effect on the next
push. -/
theorem C1_ratio_uses_previous_offsetError (s : AudioState) (env : DataEnv) (size : ℕ)
    (ts : List PlaybackDeviceTick) (buf : SampleRing)
    (hrun : s.state = .run) (hts : s.deviceTiming = some ts) (hbuf : s.buffer = some buf)
    (hsz : size ≠ 0)
    (hpc : size / (s.channels * 2) = s.spiceData.periodFrames) :
    let sdD := drainTicks s.spiceData ts
    let err : ℚ := ((env.now - sdD.nextTime : ℤ) : ℚ) * (1 / 1000000000)
    |err| < 1 / 5 →
    sdD.devLastTime ≠ INT64_MIN →
    let target := computeTarget s sdD.devPeriodFrames
    let psN := sdD.periodSec + sdD.c * err
    let aoe := -(((sdD.nextPosition : ℚ) -
      compute_device_position sdD sdD.nextTime) - target)
    let riN := sdD.ratioIntegral + sdD.offsetError * psN
    (audio_playback_data s env size).2.ratio =
      some (1 + (kpQ * sdD.offsetError + kiQ * riN)) ∧
    (audio_playback_data s env size).1.spiceData.offsetError =
      sdD.offsetError + sdD.b * (aoe - sdD.offsetError) + sdD.offsetErrorIntegral ∧
    (audio_playback_data s env size).1.spiceData.ratioIntegral = riN := by
  intro sdD err herr hdl target psN aoe riN
  have hst : s.state ≠ .stop := by rw [hrun]; simp
  have hka : s.state ≠ .keepAlive := by rw [hrun]; simp
  have hsetup : s.state ≠ .setupSpice := by rw [hrun]; simp
  rw [audio_playback_data_steady s env size hst hsz hpc]
  simp only [data_main]
  rw [hts, hbuf]
  simp only [Option.getD_some, Option.map_some]
  rw [spiceClockStep_steady _ _ _ _ _ _ _ _ hka herr]
  dsimp only
  rw [offsetFilterStep_run _ _ _ _ _ (by simpa using hdl)]
  dsimp only
  rw [if_neg hsetup]
  simp only [ite_self]
  simp only [Option.getD_none]
  rw [compute_device_position_eta]
  exact ⟨trivial, rfl, trivial⟩

/-- A running stream in steady state whose producer has interpolatable device
ticks (device at position 480 when the producer clock reads 10 ms) and a
nonzero `offsetErrorIntegral`, so the filter update visibly changes
`offsetError`. -/
def exC1 : AudioState :=
  { baseState with
      spiceData :=
        { baseSD with
            periodFrames := 480
            periodSec := 1 / 100
            nextTime := 10000000
            b := M_SQRT2_Q * (2 * M_PI_Q * (1 / 20) * (1 / 100))
            c := (2 * M_PI_Q * (1 / 20) * (1 / 100)) * (2 * M_PI_Q * (1 / 20) * (1 / 100))
            devLastTime := 0
            devNextTime := 20000000
            devLastPosition := 0
            devNextPosition := 960
            offsetErrorIntegral := 1 } }

theorem C1_counterexample :
    (audio_playback_data exC1 (baseEnv 10000000) 1920).2.ratio = some 1 ∧
    (audio_playback_data exC1 (baseEnv 10000000) 1920).1.spiceData.offsetError ≠ 0 ∧
    ¬ (audio_playback_data exC1 (baseEnv 10000000) 1920).2.ratio =
        some (1 + (kpQ *
          (audio_playback_data exC1 (baseEnv 10000000) 1920).1.spiceData.offsetError +
          kiQ *
            ((audio_playback_data exC1 (baseEnv 10000000) 1920).1.spiceData.offsetError *
              (1 / 100)))) := by
  decide

theorem C1_witness :
    (audio_playback_data exC1 (baseEnv 10000000) 1920).2.ratio =
      some (1 + (kpQ * exC1.spiceData.offsetError +
        kiQ * (exC1.spiceData.ratioIntegral + exC1.spiceData.offsetError *
          (exC1.spiceData.periodSec + exC1.spiceData.c *
            (((10000000 - exC1.spiceData.nextTime : ℤ) : ℚ) * (1 / 1000000000)))))) ∧
    (audio_playback_data exC1 (baseEnv 10000000) 1920).1.spiceData.offsetError =
      exC1.spiceData.offsetError + exC1.spiceData.b *
        (-(((exC1.spiceData.nextPosition : ℚ) -
            compute_device_position exC1.spiceData exC1.spiceData.nextTime) -
          computeTarget exC1 exC1.spiceData.devPeriodFrames) -
          exC1.spiceData.offsetError) + exC1.spiceData.offsetErrorIntegral ∧
    (audio_playback_data exC1 (baseEnv 10000000) 1920).1.spiceData.ratioIntegral =
      exC1.spiceData.ratioIntegral + exC1.spiceData.offsetError *
        (exC1.spiceData.periodSec + exC1.spiceData.c *
          (((10000000 - exC1.spiceData.nextTime : ℤ) : ℚ) * (1 / 1000000000))) :=
  C1_ratio_uses_previous_offsetError exC1 (baseEnv 10000000) 1920 [] ⟨1000⟩
    rfl rfl rfl (by decide) (by decide) (by decide) (by decide)

/-! ## Claim C4 -/

theorem drainTicks_nil (sd : PlaybackSpiceData) : drainTicks sd [] = sd := rfl

/-- C4 (amended): when the PLL timing error reaches 0.2 s the affected side
slews and resets its tracker, but the details differ by side.  Device side:
the ring is slewed by `round(error·sampleRate)` consumed frames,
`periodSec = frames/sampleRate`, `nextTime = now + periodSec·1e9`,
`nextPosition += slewFrames + frames`, and the LatencyController state is NOT
touched (it lives on the producer side).  Producer side: silence is appended;
the slew amount is `round(error·sampleRate)` only when no device tick has been
seen, and `round(devPosition + targetLatency − nextPosition)` otherwise; the
tracker is reset the same way except that `nextPosition` advances by the slew
plus the resampled output of the push (not the raw frame count); the
LatencyController state is reset to zero (and, when ticks are known,
immediately refiltered from zero on the same push), so the push's ratio is
exactly 1.0. -/
theorem C4_desync_slew_behaviour :
    (∀ (s : AudioState) (now : ℤ) (frames : ℕ) (buf : SampleRing),
      s.buffer = some buf → s.state = .run → frames ≠ 0 →
      frames = s.deviceData.periodFrames →
      (1 / 5 : ℚ) ≤ |((now - s.deviceData.nextTime : ℤ) : ℚ) * (1 / 1000000000)| →
      (audio_pull s now frames).1.deviceData.periodSec =
        (frames : ℚ) / (s.sampleRate : ℚ) ∧
      (audio_pull s now frames).1.deviceData.nextTime =
        now + llrintQ ((frames : ℚ) / (s.sampleRate : ℚ) * 1000000000) ∧
      (audio_pull s now frames).1.deviceData.nextPosition =
        s.deviceData.nextPosition +
          croundQ (((now - s.deviceData.nextTime : ℤ) : ℚ) * (1 / 1000000000) *
            (s.sampleRate : ℚ)) + frames ∧
      (audio_pull s now frames).1.buffer =
        some ⟨buf.count -
          croundQ (((now - s.deviceData.nextTime : ℤ) : ℚ) * (1 / 1000000000) *
            (s.sampleRate : ℚ)) - frames⟩ ∧
      (audio_pull s now frames).1.spiceData = s.spiceData) ∧
    (∀ (s : AudioState) (env : DataEnv) (size : ℕ) (buf : SampleRing),
      s.buffer = some buf → s.state = .run → s.deviceTiming = some [] → size ≠ 0 →
      size / (s.channels * 2) = s.spiceData.periodFrames →
      (1 / 5 : ℚ) ≤ |((env.now - s.spiceData.nextTime : ℤ) : ℚ) * (1 / 1000000000)| →
      s.spiceData.devLastTime = INT64_MIN →
      (audio_playback_data s env size).2.ratio = some 1 ∧
      (audio_playback_data s env size).1.spiceData.offsetError = 0 ∧
      (audio_playback_data s env size).1.spiceData.offsetErrorIntegral = 0 ∧
      (audio_playback_data s env size).1.spiceData.ratioIntegral = 0 ∧
      (audio_playback_data s env size).1.spiceData.periodSec =
        ((size / (s.channels * 2) : ℕ) : ℚ) / (s.sampleRate : ℚ) ∧
      (audio_playback_data s env size).1.spiceData.nextTime =
        env.now + llrintQ (((size / (s.channels * 2) : ℕ) : ℚ) / (s.sampleRate : ℚ) *
          1000000000) ∧
      (audio_playback_data s env size).1.spiceData.nextPosition =
        s.spiceData.nextPosition +
          croundQ (((env.now - s.spiceData.nextTime : ℤ) : ℚ) * (1 / 1000000000) *
            (s.sampleRate : ℚ)) +
          ((audio_playback_data s env size).2.outGen : ℤ) ∧
      (audio_playback_data s env size).1.buffer =
        some ⟨buf.count +
          croundQ (((env.now - s.spiceData.nextTime : ℤ) : ℚ) * (1 / 1000000000) *
            (s.sampleRate : ℚ)) +
          ((audio_playback_data s env size).2.outGen : ℤ)⟩ ∧
      (audio_playback_data s env size).1.state = .run) ∧
    (∀ (s : AudioState) (env : DataEnv) (size : ℕ) (buf : SampleRing),
      s.buffer = some buf → s.state = .run → s.deviceTiming = some [] → size ≠ 0 →
      size / (s.channels * 2) = s.spiceData.periodFrames →
      (1 / 5 : ℚ) ≤ |((env.now - s.spiceData.nextTime : ℤ) : ℚ) * (1 / 1000000000)| →
      s.spiceData.devLastTime ≠ INT64_MIN →
      let dp := compute_device_position s.spiceData env.now
      let target := computeTarget s s.spiceData.devPeriodFrames
      let slew := croundQ (dp + target - (s.spiceData.nextPosition : ℚ))
      (audio_playback_data s env size).2.ratio = some 1 ∧
      (audio_playback_data s env size).1.spiceData.ratioIntegral = 0 ∧
      (audio_playback_data s env size).1.spiceData.offsetError =
        s.spiceData.b *
          (-((((s.spiceData.nextPosition + slew : ℤ) : ℚ) - dp) - target)) ∧
      (audio_playback_data s env size).1.spiceData.offsetErrorIntegral =
        s.spiceData.c *
          (-((((s.spiceData.nextPosition + slew : ℤ) : ℚ) - dp) - target)) ∧
      (audio_playback_data s env size).1.spiceData.nextPosition =
        s.spiceData.nextPosition + slew +
          ((audio_playback_data s env size).2.outGen : ℤ) ∧
      (audio_playback_data s env size).1.buffer =
        some ⟨buf.count + slew + ((audio_playback_data s env size).2.outGen : ℤ)⟩ ∧
      (audio_playback_data s env size).1.state = .run) := by
  refine ⟨?_, ?_, ?_⟩
  · rintro s now frames buf hbuf hrun hf hpf herr
    have hst : s.state ≠ .setupDevice := by rw [hrun]; simp
    rw [audio_pull_notSetup s now frames buf hbuf hf hst]
    dsimp only
    rw [deviceClockStep_slew _ _ _ _ _ hpf herr]
    dsimp only
    rw [if_neg (by simp [hrun])]
    refine ⟨rfl, rfl, rfl, ?_, rfl⟩
    simp [SampleRing.consume]
  · rintro s env size buf hbuf hrun hts hsz hpc herr hdl0
    have hst : s.state ≠ .stop := by rw [hrun]; simp
    have hka : s.state ≠ .keepAlive := by rw [hrun]; simp
    have hsetup : s.state ≠ .setupSpice := by rw [hrun]; simp
    rw [audio_playback_data_steady s env size hst hsz hpc]
    simp only [data_main]
    rw [hts, hbuf]
    simp only [Option.getD_some, Option.map_some, drainTicks_nil]
    rw [spiceClockStep_slew_noDev _ _ _ _ _ _ _ _ (Or.inl herr) hdl0]
    dsimp only
    rw [offsetFilterStep_skip _ _ _ _ _ (by simpa using hdl0)]
    dsimp only
    rw [if_neg (by decide : ¬(StreamState.run = StreamState.setupSpice))]
    simp only [ite_self]
    rw [(srcLoop_np_buf env.rs (size / (s.channels * 2)) _ _ _ _ _ _).1,
        (srcLoop_np_buf env.rs (size / (s.channels * 2)) _ _ _ _ _ _).2]
    simp [SampleRing.append, add_assoc]
  · rintro s env size buf hbuf hrun hts hsz hpc herr hdl
    intro dp target slew
    unfold slew target dp
    have hst : s.state ≠ .stop := by rw [hrun]; simp
    have hka : s.state ≠ .keepAlive := by rw [hrun]; simp
    have hsetup : s.state ≠ .setupSpice := by rw [hrun]; simp
    rw [audio_playback_data_steady s env size hst hsz hpc]
    simp only [data_main]
    rw [hts, hbuf]
    simp only [Option.getD_some, Option.map_some, drainTicks_nil]
    rw [spiceClockStep_slew_dev _ _ _ _ _ _ _ _ (Or.inl herr) hka hdl]
    dsimp only
    rw [offsetFilterStep_run _ _ _ _ _ (by simpa using hdl)]
    dsimp only
    rw [if_neg (by decide : ¬(StreamState.run = StreamState.setupSpice))]
    simp only [ite_self]
    simp only [Option.getD_some]
    rw [(srcLoop_np_buf env.rs (size / (s.channels * 2)) _ _ _ _ _ _).1,
        (srcLoop_np_buf env.rs (size / (s.channels * 2)) _ _ _ _ _ _).2]
    exact ⟨by simp, by simp, by ring_nf, by ring_nf, by simp [add_assoc],
      by simp [SampleRing.append, add_assoc], by trivial⟩

/-- A running stream with nonzero producer `offsetError` whose device-side
pull arrives 0.25 s late. -/
def exC4a : AudioState :=
  { baseState with
      deviceData := { baseDD with periodFrames := 480, periodSec := 1 / 100, nextTime := 0 }
      spiceData := { baseSD with offsetError := 7 } }

theorem C4_counterexample :
    (1 / 5 : ℚ) ≤ |((250000000 - exC4a.deviceData.nextTime : ℤ) : ℚ) * (1 / 1000000000)| ∧
    (audio_pull exC4a 250000000 480).1.deviceData.nextPosition =
      exC4a.deviceData.nextPosition + 12000 + 480 ∧
    (audio_pull exC4a 250000000 480).1.spiceData.offsetError = 7 ∧
    (7 : ℚ) ≠ 0 := by
  decide

/-- A running stream whose producer clock is 0.25 s late and has seen no
device tick. -/
def exC4b : AudioState :=
  { baseState with
      spiceData := { baseSD with periodFrames := 480, periodSec := 1 / 100, nextTime := 0 } }

/-- A running stream whose producer clock is 0.25 s late and has seen device
ticks (device at 24000 frames by t = 0.5 s). -/
def exC4c : AudioState :=
  { baseState with
      spiceData :=
        { baseSD with
            periodFrames := 480
            periodSec := 1 / 100
            nextTime := 0
            devLastTime := 0
            devNextTime := 500000000
            devLastPosition := 0
            devNextPosition := 24000 } }

theorem C4_witness :
    (audio_pull exC4a 250000000 480).1.spiceData = exC4a.spiceData ∧
    (audio_playback_data exC4b (baseEnv 250000000) 1920).2.ratio = some 1 ∧
    (audio_playback_data exC4b (baseEnv 250000000) 1920).1.spiceData.offsetError = 0 ∧
    (audio_playback_data exC4c (baseEnv 250000000) 1920).2.ratio = some 1 ∧
    (audio_playback_data exC4c (baseEnv 250000000) 1920).1.spiceData.ratioIntegral = 0 :=
  ⟨(C4_desync_slew_behaviour.1 exC4a 250000000 480 ⟨1000⟩ (by decide) rfl (by decide)
      (by decide) (by decide)).2.2.2.2,
   (C4_desync_slew_behaviour.2.1 exC4b (baseEnv 250000000) 1920 ⟨1000⟩ (by decide) rfl rfl
      (by decide) (by decide) (by decide) (by decide)).1,
   (C4_desync_slew_behaviour.2.1 exC4b (baseEnv 250000000) 1920 ⟨1000⟩ (by decide) rfl rfl
      (by decide) (by decide) (by decide) (by decide)).2.1,
   (C4_desync_slew_behaviour.2.2 exC4c (baseEnv 250000000) 1920 ⟨1000⟩ (by decide) rfl rfl
      (by decide) (by decide) (by decide) (by decide)).1,
   (C4_desync_slew_behaviour.2.2 exC4c (baseEnv 250000000) 1920 ⟨1000⟩ (by decide) rfl rfl
      (by decide) (by decide) (by decide) (by decide)).2.1⟩

/-! ## Claim C9 -/

/-- C9 (corrected): the per-channel gain curve is
`9.3234e-7 · 1.000211902^v − 0.000172787` exactly as written, but its actual
values are `gain(0) = −1.7185466e-4` (negative), `gain(32768) ≈ 7.9287e-4` and
`gain(65535) ≈ 0.99979` — not the `7.46e-7`, `0.112` and `0.979` quoted by the
spec. -/
theorem C9_volume_curve_values :
    audiodev_gain 0 = -17185466 / 100000000000 ∧
    ((7928 / 10000000 : ℚ) < audiodev_gain 32768 ∧
      audiodev_gain 32768 < 7929 / 10000000) ∧
    ((9997 / 10000 : ℚ) < audiodev_gain 65535 ∧ audiodev_gain 65535 < 9998 / 10000) := by
  refine ⟨by decide, ?_, ?_⟩
  · rw [audiodev_gain_qpow 32768 (by norm_num)]
    decide
  · rw [audiodev_gain_qpow 65535 (by norm_num)]
    decide

theorem C9_counterexample :
    audiodev_gain 0 < 0 ∧
    ¬ |audiodev_gain 0 - 746 / 1000000000| ≤ 746 / 1000000000 * (5 / 10000) ∧
    ¬ |audiodev_gain 32768 - 112 / 1000| ≤ 112 / 1000 * (5 / 10000) := by
  refine ⟨by decide, by decide, ?_⟩
  rw [audiodev_gain_qpow 32768 (by norm_num)]
  decide

/-! ## Claim C8 -/

/-- C8 (amended): the two transient failures of a producer push are handled
differently.  An allocation failure for the per-period scratch buffers logs,
aborts the call, and transitions the stream to STOP, freeing the SampleRing,
the TimingRing and the resampler, so the next start recovers.  A resampler
process error, however, only logs and aborts the current data call: the stream
state is left unchanged (not STOP) and no resources are freed. -/
theorem C8_transient_error_policy :
    (∀ (s : AudioState) (env : DataEnv) (size : ℕ),
      s.state ≠ .stop → size ≠ 0 →
      size / (s.channels * 2) ≠ s.spiceData.periodFrames →
      env.allocIn = false →
      (audio_playback_data s env size).1.state = .stop ∧
      (audio_playback_data s env size).1.buffer = none ∧
      (audio_playback_data s env size).1.deviceTiming = none ∧
      (audio_playback_data s env size).1.spiceData.src = false ∧
      (audio_playback_data s env size).1.spiceData.framesIn = none ∧
      (audio_playback_data s env size).1.spiceData.framesOut = none) ∧
    (∀ (s : AudioState) (env : DataEnv) (size : ℕ),
      s.state ≠ .stop → size ≠ 0 →
      size / (s.channels * 2) ≠ s.spiceData.periodFrames →
      env.allocIn = true → env.allocOut = false →
      (audio_playback_data s env size).1.state = .stop ∧
      (audio_playback_data s env size).1.buffer = none ∧
      (audio_playback_data s env size).1.deviceTiming = none ∧
      (audio_playback_data s env size).1.spiceData.src = false ∧
      (audio_playback_data s env size).1.spiceData.framesIn = none ∧
      (audio_playback_data s env size).1.spiceData.framesOut = none) ∧
    (∀ (s : AudioState) (env : DataEnv) (size : ℕ) (buf : SampleRing),
      s.buffer = some buf → s.state = .run → s.deviceTiming = some [] → size ≠ 0 →
      size / (s.channels * 2) = s.spiceData.periodFrames →
      size / (s.channels * 2) ≠ 0 →
      s.spiceData.devLastTime = INT64_MIN →
      |((env.now - s.spiceData.nextTime : ℤ) : ℚ) * (1 / 1000000000)| < 1 / 5 →
      env.rs = rsFail →
      (audio_playback_data s env size).2.rsError = true ∧
      (audio_playback_data s env size).1.state = .run ∧
      (audio_playback_data s env size).1.buffer = some buf ∧
      (audio_playback_data s env size).1.spiceData.src = s.spiceData.src ∧
      (audio_playback_data s env size).1.spiceData.framesIn = s.spiceData.framesIn ∧
      (audio_playback_data s env size).1.spiceData.framesOut = s.spiceData.framesOut) := by
  refine ⟨?_, ?_, ?_⟩
  · rintro s env size hst hsz hpc hai
    simp only [audio_playback_data]
    rw [if_neg (not_or.mpr ⟨hst, hsz⟩), if_pos hpc, hai, if_pos rfl]
    unfold playback_stop
    rw [if_neg (by simpa using hst)]
    exact ⟨rfl, rfl, rfl, rfl, rfl, rfl⟩
  · rintro s env size hst hsz hpc hai hao
    simp only [audio_playback_data]
    rw [if_neg (not_or.mpr ⟨hst, hsz⟩), if_pos hpc, hai]
    simp only [Bool.true_eq_false, if_false]
    rw [hao, if_pos rfl]
    unfold playback_stop
    rw [if_neg (by simpa using hst)]
    exact ⟨rfl, rfl, rfl, rfl, rfl, rfl⟩
  · rintro s env size buf hbuf hrun hts hsz hpc hf0 hdl0 herr hrs
    have hst : s.state ≠ .stop := by rw [hrun]; simp
    have hka : s.state ≠ .keepAlive := by rw [hrun]; simp
    rw [audio_playback_data_steady s env size hst hsz hpc]
    simp only [data_main]
    rw [hts, hbuf]
    simp only [Option.getD_some, Option.map_some, drainTicks_nil]
    rw [spiceClockStep_steady _ _ _ _ _ _ _ _ hka herr]
    dsimp only
    rw [offsetFilterStep_skip _ _ _ _ _ (by simpa using hdl0)]
    dsimp only
    rw [hrs, srcLoop_err rsFail _ _ _ _ _ _ _ (fun _ _ _ => rfl) (Nat.pos_of_ne_zero hf0)]
    dsimp only
    simp [hrun]

/-- A push environment whose resampler fails every process call. -/
def envC8 : DataEnv where
  now := 10000000
  allocIn := true
  allocOut := true
  rs := rsFail

/-- A push environment whose `framesIn` scratch allocation fails. -/
def envC8a : DataEnv where
  now := 10000000
  allocIn := false
  allocOut := true
  rs := rsOneToOne

/-- A push environment whose `framesOut` scratch allocation fails. -/
def envC8b : DataEnv where
  now := 10000000
  allocIn := true
  allocOut := false
  rs := rsOneToOne

theorem C8_counterexample :
    (audio_playback_data baseState envC8 1920).2.rsError = true ∧
    (audio_playback_data baseState envC8 1920).1.state ≠ .stop ∧
    (audio_playback_data baseState envC8 1920).1.buffer ≠ none := by
  decide

theorem C8_witness :
    (audio_playback_data baseState envC8a 960).1.state = .stop ∧
    (audio_playback_data baseState envC8a 960).1.buffer = none ∧
    (audio_playback_data baseState envC8b 960).1.state = .stop ∧
    (audio_playback_data baseState envC8 1920).2.rsError = true ∧
    (audio_playback_data baseState envC8 1920).1.state = .run :=
  ⟨(C8_transient_error_policy.1 baseState envC8a 960 (by decide) (by decide) (by decide)
      rfl).1,
   (C8_transient_error_policy.1 baseState envC8a 960 (by decide) (by decide) (by decide)
      rfl).2.1,
   (C8_transient_error_policy.2.1 baseState envC8b 960 (by decide) (by decide) (by decide)
      rfl rfl).1,
   (C8_transient_error_policy.2.2 baseState envC8 1920 ⟨1000⟩ (by decide) rfl rfl
      (by decide) (by decide) (by decide) (by decide) (by decide) rfl).1,
   (C8_transient_error_policy.2.2 baseState envC8 1920 ⟨1000⟩ (by decide) rfl rfl
      (by decide) (by decide) (by decide) (by decide) (by decide) rfl).2.1⟩

/-! ## Claim C10 -/

/-- C10: `audio_playback_volume` caches the volume values regardless of stream
state, stores at most 8 channel entries (the first `min 8 channels` values),
clamps the stored channel count to 8, forwards the clamped count and values to
the audio device exactly when the stream is active (RUN or KEEP_ALIVE), and
makes no device call otherwise. -/
theorem C10_volume_clamp (s : AudioState) (channels : ℕ) (vol : List ℕ) :
    (audio_playback_volume s channels vol).1.volumeChannels = min 8 channels ∧
    (audio_playback_volume s channels vol).1.volume =
      vol.take (min 8 channels) ++ s.volume.drop (min 8 channels) ∧
    min 8 channels ≤ 8 ∧
    (STREAM_ACTIVE s.state = true →
      (audio_playback_volume s channels vol).2 =
        some (min 8 channels, vol.take (min 8 channels))) ∧
    (STREAM_ACTIVE s.state = false → (audio_playback_volume s channels vol).2 = none) := by
  by_cases hac : STREAM_ACTIVE s.state = true
  · simp [audio_playback_volume, hac, Nat.min_le_left]
  · simp only [Bool.not_eq_true] at hac
    simp [audio_playback_volume, hac, Nat.min_le_left]

theorem C10_witness :
    (audio_playback_volume baseState 10 [1, 2, 3, 4, 5, 6, 7, 8, 9, 10]).1.volumeChannels =
        min 8 10 ∧
    (audio_playback_volume baseState 10 [1, 2, 3, 4, 5, 6, 7, 8, 9, 10]).1.volume =
      [1, 2, 3, 4, 5, 6, 7, 8, 9, 10].take (min 8 10) ++ baseState.volume.drop (min 8 10) ∧
    min 8 10 ≤ 8 ∧
    (STREAM_ACTIVE baseState.state = true →
      (audio_playback_volume baseState 10 [1, 2, 3, 4, 5, 6, 7, 8, 9, 10]).2 =
        some (min 8 10, [1, 2, 3, 4, 5, 6, 7, 8, 9, 10].take (min 8 10))) ∧
    (STREAM_ACTIVE baseState.state = false →
      (audio_playback_volume baseState 10 [1, 2, 3, 4, 5, 6, 7, 8, 9, 10]).2 = none) :=
  C10_volume_clamp baseState 10 [1, 2, 3, 4, 5, 6, 7, 8, 9, 10]

end SpicyKvm
